import Mathlib

/-!
Verification of the audio-buffer mediation subsystem of ymery
(`src/ymery/backend/audio_buffer.py`), as a shallow embedding.

Sample values are modelled as integers (`Int`): the code only stores, copies
and slices samples, never computes with them, so the carrier type is
irrelevant.  A numpy array is a `List Int`; the unallocated state
(`self._buffer is None`) is `Option.none`.  Operations that can raise return
the post-call object state paired with `Option String`: `some err` models a
raised exception (Python objects keep the mutations performed before the
raise, which the state component reflects).
-/

/-- Semantics of a numpy 1-d basic slice read `xs[i:j]` with nonnegative
bounds: both bounds are clamped to the array length, and `i > j` yields the
empty slice. -/
def npSlice (xs : List Int) (i j : Nat) : List Int :=
  (xs.take j).drop i

/-- Semantics of a numpy 1-d slice assignment `xs[i:j] = data` with
nonnegative bounds: bounds are clamped to the array length and the assignment
raises a broadcast `ValueError` (modelled as `none`) unless the clamped slice
length equals `data.length`. -/
def npSliceAssign (xs : List Int) (i j : Nat) (data : List Int) :
    Option (List Int) :=
  if min j xs.length - min i (min j xs.length) = data.length then
    some (xs.take (min i (min j xs.length)) ++ data ++ xs.drop (min j xs.length))
  else none

/-- Python suffix slice `xs[-c:]` for a nonnegative count `c`: since
`-0 == 0`, a count of `0` yields the whole list rather than the empty one. -/
def negSuffix (xs : List Int) (c : Nat) : List Int :=
  if c = 0 then xs else xs.drop (xs.length - c)

/-- Message of the `ValueError` raised by `DynamicAudioRingBuffer.set_range`
for a nonzero `start`. -/
def startValueError : String := "DynamicRingBuffer.set_range() requires start=0"

/-- Message of a numpy broadcast `ValueError` on a shape-mismatched slice
assignment. -/
def broadcastValueError : String := "could not broadcast input array"

/-- Message of the `AttributeError` raised when an unset attribute is read. -/
def attributeError : String := "AttributeError"

/-- State of `DynamicAudioRingBuffer` (one channel, double-depth ring
buffer). -/
structure DynamicAudioRingBuffer where
  sample_rate : Nat
  period_size : Nat
  buffer_size : Nat
  physical_size : Nat
  buffer : Option (List Int)
  active : Bool
  frozen : Bool
  ptr : Nat
  has_wrapped : Bool
deriving DecidableEq

/-- Embeds `DynamicAudioRingBuffer._round_to_period`:
`((size + p - 1) // p) * p`. -/
def round_to_period (period_size size : Nat) : Nat :=
  ((size + period_size - 1) / period_size) * period_size

/-- Embeds `DynamicAudioRingBuffer.__init__` (the entry point
`Object.create` calls `__init__` and then `init`, which only returns `Ok`).
Python `period_size or 1024` evaluates to `1024` both when `period_size` is
`None` and when it is `0`. -/
def DynamicAudioRingBuffer.create (sample_rate initial_size : Nat)
    (period_size : Option Nat) : DynamicAudioRingBuffer :=
  let p := match period_size with
    | none => 1024
    | some q => if q = 0 then 1024 else q
  let isize := if initial_size = 0 then p else initial_size
  let n := round_to_period p isize
  { sample_rate := sample_rate, period_size := p, buffer_size := n,
    physical_size := n * 2, buffer := none, active := false, frozen := false,
    ptr := 0, has_wrapped := false }

/-- Embeds `DynamicAudioRingBuffer.activate` (with the inlined `_allocate`). -/
def DynamicAudioRingBuffer.activate (s : DynamicAudioRingBuffer) :
    DynamicAudioRingBuffer :=
  if s.active then s
  else { s with
    buffer := some (s.buffer.getD (List.replicate s.physical_size 0)),
    active := true }

/-- Embeds `DynamicAudioRingBuffer.deactivate`. -/
def DynamicAudioRingBuffer.deactivate (s : DynamicAudioRingBuffer) :
    DynamicAudioRingBuffer :=
  if s.active then
    { s with buffer := if s.frozen then s.buffer else none, active := false }
  else s

/-- Embeds `DynamicAudioRingBuffer.freeze`. -/
def DynamicAudioRingBuffer.freeze (s : DynamicAudioRingBuffer) :
    DynamicAudioRingBuffer :=
  { s with frozen := true }

/-- Embeds `DynamicAudioRingBuffer.unfreeze`. -/
def DynamicAudioRingBuffer.unfreeze (s : DynamicAudioRingBuffer) :
    DynamicAudioRingBuffer :=
  { s with frozen := false }

/-- Embeds `DynamicAudioRingBuffer.close` (also `dispose`). -/
def DynamicAudioRingBuffer.close (s : DynamicAudioRingBuffer) :
    DynamicAudioRingBuffer :=
  { s with buffer := none, active := false }

/-- Embeds `DynamicAudioRingBuffer.set_sample_rate`. -/
def DynamicAudioRingBuffer.set_sample_rate (s : DynamicAudioRingBuffer)
    (sample_rate : Nat) : DynamicAudioRingBuffer :=
  { s with sample_rate := sample_rate }

/-- Embeds the `data` property of `DynamicAudioRingBuffer`: `None` when
unallocated, `buffer[0:ptr]` before the pointer ever reaches the logical
size, `buffer[ptr - N : ptr]` afterwards. -/
def DynamicAudioRingBuffer.data (s : DynamicAudioRingBuffer) :
    Option (List Int) :=
  match s.buffer with
  | none => none
  | some b =>
    if s.ptr < s.buffer_size then some (npSlice b 0 s.ptr)
    else some (npSlice b (s.ptr - s.buffer_size) s.ptr)

/-- Embeds `DynamicAudioRingBuffer.write`.  Faithful to the source, the
final `self._ptr += n` sits outside the `if self._active and not
self._frozen` block, so an inactive or frozen buffer still advances its
pointer. -/
def DynamicAudioRingBuffer.write (s : DynamicAudioRingBuffer)
    (data : List Int) : DynamicAudioRingBuffer × Option String :=
  let n := data.length
  if s.active = true ∧ s.frozen = false then
    let b0 := s.buffer.getD (List.replicate s.physical_size 0)
    let step1 :=
      if s.physical_size ≤ s.ptr then
        npSliceAssign b0 0 s.buffer_size (npSlice b0 s.buffer_size s.physical_size)
      else some b0
    match step1 with
    | none => ({ s with buffer := some b0 }, some broadcastValueError)
    | some b1 =>
      let p1 := if s.physical_size ≤ s.ptr then s.buffer_size else s.ptr
      let step2 :=
        if s.buffer_size ≤ p1 ∧ s.has_wrapped = false then
          npSliceAssign b1 0 s.buffer_size (npSlice b1 s.buffer_size s.physical_size)
        else some b1
      match step2 with
      | none => ({ s with buffer := some b1, ptr := p1 }, some broadcastValueError)
      | some b2 =>
        let w2 := s.has_wrapped || decide (s.buffer_size ≤ p1)
        match npSliceAssign b2 p1 (p1 + n) data with
        | none =>
          ({ s with buffer := some b2, ptr := p1, has_wrapped := w2 },
           some broadcastValueError)
        | some b3 =>
          ({ s with buffer := some b3, ptr := p1 + n, has_wrapped := w2 },
           none)
  else
    ({ s with ptr := s.ptr + n }, none)

/-- Embeds `DynamicAudioRingBuffer.set_range`.  Mirrors the source ordering:
the sizes are updated before `self.data` is read, so `old_useful_data` is
computed with the new logical size over the old storage and pointer. -/
def DynamicAudioRingBuffer.set_range (s : DynamicAudioRingBuffer)
    (start : Int) (length : Nat) : DynamicAudioRingBuffer × Option String :=
  if start ≠ 0 then (s, some startValueError)
  else
    let new_length := round_to_period s.period_size length
    if new_length = s.buffer_size then (s, none)
    else
      match s.buffer with
      | none =>
        ({ s with buffer_size := new_length, physical_size := new_length * 2,
                  ptr := 0, has_wrapped := false }, none)
      | some b =>
        -- `old_useful_data = self.data`, read after the source has already set
        -- `self._buffer_size = new_length` (the old storage `b` and the old
        -- `ptr` remain), hence the `data` property inlined at the new size
        let old_useful :=
          if s.ptr < new_length then npSlice b 0 s.ptr
          else npSlice b (s.ptr - new_length) s.ptr
        let data_to_copy := min old_useful.length new_length
        let new_buffer := List.replicate (new_length * 2) (0 : Int)
        if 0 < old_useful.length then
          match npSliceAssign new_buffer 0 data_to_copy
              (negSuffix old_useful data_to_copy) with
          | none =>
            ({ s with buffer_size := new_length,
                      physical_size := new_length * 2 },
             some broadcastValueError)
          | some nb =>
            ({ s with buffer_size := new_length,
                      physical_size := new_length * 2, buffer := some nb,
                      ptr := data_to_copy, has_wrapped := false }, none)
        else
          ({ s with buffer_size := new_length,
                    physical_size := new_length * 2,
                    buffer := some new_buffer, ptr := data_to_copy,
                    has_wrapped := false }, none)

/-- State of `MediatedAudioBuffer`: the source `__init__` stores `0` for
`_start` regardless of the `start` argument, defaults `_length` to `65536`
when `length` is `None`, and never assigns `_mediated_id` anywhere in the
repository, which is modelled as `Option.none` (reading it raises
`AttributeError`). -/
structure MediatedAudioBuffer where
  start : Nat
  length : Nat
  mediated_id : Option Nat
deriving DecidableEq

/-- Embeds `MediatedAudioBuffer.__init__` (invoked through
`MediatedAudioBuffer.create`; `init` only returns `Ok`). -/
def MediatedAudioBuffer.create (_start : Nat) (length : Option Nat) :
    MediatedAudioBuffer :=
  { start := 0, length := length.getD 65536, mediated_id := none }

/-- Embeds `MediatedAudioBuffer.set_start`. -/
def MediatedAudioBuffer.set_start (v : MediatedAudioBuffer) (start : Nat) :
    MediatedAudioBuffer :=
  { v with start := start }

/-- Embeds `MediatedAudioBuffer.set_length`. -/
def MediatedAudioBuffer.set_length (v : MediatedAudioBuffer) (length : Nat) :
    MediatedAudioBuffer :=
  { v with length := length }

/-- Embeds the field updates of `MediatedAudioBuffer.set_range` (the method
then notifies the mediator, whose resize pass is
`DynamicAudioBufferMediator.resize_source_if_needed` below). -/
def MediatedAudioBuffer.set_range (v : MediatedAudioBuffer)
    (start length : Nat) : MediatedAudioBuffer :=
  { v with start := start, length := length }

/-- Embeds the `data` property of `MediatedAudioBuffer`; `source_data` is the
value of `self._mediator.data` (a pass-through of the backend's `data`),
`none` modelling the `None` return, for which the source returns the empty
array. -/
def MediatedAudioBuffer.data (v : MediatedAudioBuffer)
    (source_data : Option (List Int)) : List Int :=
  match source_data with
  | none => []
  | some d =>
    let available := d.length
    npSlice d (min v.start available) (min (v.start + v.length) available)

/-- `AudioBufferMediator` specialised to a `DynamicAudioRingBuffer` backend
(`DynamicAudioBufferMediator`); `views` models `_mediated_buffers`, an
insertion-ordered dict keyed by the generated object uid (modelled as a
`Nat` chosen by the caller, standing for the random `gen_uid` string). -/
structure DynamicAudioBufferMediator where
  backend : DynamicAudioRingBuffer
  views : List (Nat × MediatedAudioBuffer)
deriving DecidableEq

/-- Python dict assignment `d[k] = v`: update in place when the key exists,
append otherwise. -/
def dictInsert (k : Nat) (v : MediatedAudioBuffer)
    (m : List (Nat × MediatedAudioBuffer)) : List (Nat × MediatedAudioBuffer) :=
  if m.any (fun p => p.1 == k) then
    m.map (fun p => if p.1 = k then (k, v) else p)
  else m ++ [(k, v)]

/-- Embeds `AudioBufferMediator._resize_source_if_needed`: a no-op on an
empty view set, otherwise `backend.set_range(0, max(start + length))`. -/
def DynamicAudioBufferMediator.resize_source_if_needed
    (m : DynamicAudioBufferMediator) :
    DynamicAudioBufferMediator × Option String :=
  if m.views.isEmpty then (m, none)
  else
    let max_end := (m.views.map (fun p => p.2.start + p.2.length)).foldl max 0
    let r := m.backend.set_range 0 max_end
    ({ m with backend := r.1 }, r.2)

/-- Embeds `DynamicAudioBufferMediator.open`; `uid` stands for the random
uid generated for the new `MediatedAudioBuffer`.  Returns the new mediator
state, the created view, and `some err` when the resize pass raises. -/
def DynamicAudioBufferMediator.open (m : DynamicAudioBufferMediator)
    (uid start : Nat) (length : Option Nat) :
    DynamicAudioBufferMediator × MediatedAudioBuffer × Option String :=
  let v := MediatedAudioBuffer.create start length
  let views := dictInsert uid v m.views
  let backend := if views.length = 1 then m.backend.activate else m.backend
  let r := DynamicAudioBufferMediator.resize_source_if_needed ⟨backend, views⟩
  (r.1, v, r.2)

/-- Message of the `Result.error` returned by
`AudioBufferMediator._remove_mediated_buffer` for an unknown view id. -/
def viewNotFoundError (uid : Nat) : String :=
  toString uid ++ " not found in buffers map"

/-- Embeds `AudioBufferMediator._remove_mediated_buffer`: an id that is not
registered yields an error and leaves the mediator unchanged; otherwise the
entry is deleted and the resize pass re-runs. -/
def DynamicAudioBufferMediator.remove_mediated_buffer
    (m : DynamicAudioBufferMediator) (uid : Nat) :
    DynamicAudioBufferMediator × Option String :=
  if m.views.any (fun p => p.1 == uid) then
    DynamicAudioBufferMediator.resize_source_if_needed
      ⟨m.backend, m.views.filter (fun p => p.1 != uid)⟩
  else (m, some (viewNotFoundError uid))

/-- Embeds `MediatedAudioBuffer.close`: the source reads
`self._mediated_id`, an attribute that no code in the repository ever
assigns, so the read raises `AttributeError` before the mediator is
touched. -/
def DynamicAudioBufferMediator.close (m : DynamicAudioBufferMediator)
    (v : MediatedAudioBuffer) : DynamicAudioBufferMediator × Option String :=
  match v.mediated_id with
  | none => (m, some attributeError)
  | some uid => m.remove_mediated_buffer uid

/-- State of `FileAudioBuffer` (one channel of a decoded file). -/
structure FileAudioBuffer where
  file_path : String
  sample_rate : Nat
  num_samples : Nat
  buffer : Option (List Int)
  active : Bool
deriving DecidableEq

/-- Embeds `FileAudioBuffer.__init__`: stores a copy of `data`, active by
default. -/
def FileAudioBuffer.create (file_path : String) (data : List Int)
    (sample_rate : Nat) : FileAudioBuffer :=
  { file_path := file_path, sample_rate := sample_rate,
    num_samples := data.length, buffer := some data, active := true }

/-- Embeds the `data` property of `FileAudioBuffer`: the whole buffer when
active, `None` otherwise. -/
def FileAudioBuffer.data (s : FileAudioBuffer) : Option (List Int) :=
  if s.active then s.buffer else none

/-- Embeds `FileAudioBuffer.try_lock`, which always returns `True`. -/
def FileAudioBuffer.try_lock (_ : FileAudioBuffer) : Bool := true

/-- Embeds `FileAudioBuffer.set_range`, whose body is `pass`. -/
def FileAudioBuffer.set_range (s : FileAudioBuffer) (_start _length : Nat) :
    FileAudioBuffer := s

/-- Reader-side operations on a `FileAudioBuffer` whose bodies are `pass`
(or, for `try_lock`, return a constant without mutating). -/
inductive FileOp where
  | setRange (start length : Nat)
  | lock
  | unlock
  | tryLock
deriving DecidableEq

/-- State effect of one reader-side operation on a `FileAudioBuffer`. -/
def FileAudioBuffer.applyOp (s : FileAudioBuffer) (op : FileOp) :
    FileAudioBuffer :=
  match op with
  | .setRange a b => s.set_range a b
  | .lock => s
  | .unlock => s
  | .tryLock => s

/-- State effect of a sequence of reader-side operations. -/
def FileAudioBuffer.applyOps (s : FileAudioBuffer) (ops : List FileOp) :
    FileAudioBuffer :=
  ops.foldl FileAudioBuffer.applyOp s

/-! ## Helper lemmas -/

lemma npSlice_length (xs : List Int) (i j : Nat) :
    (npSlice xs i j).length = min j xs.length - i := by
  simp [npSlice]

lemma negSuffix_length (xs : List Int) (c : Nat) (h0 : c ≠ 0) :
    (negSuffix xs c).length = min c xs.length := by
  simp [negSuffix, h0]
  omega

lemma write_fst_sizes (s : DynamicAudioRingBuffer) (d : List Int) :
    (s.write d).1.physical_size = s.physical_size ∧
    (s.write d).1.buffer_size = s.buffer_size ∧
    (s.write d).1.period_size = s.period_size := by
  simp only [DynamicAudioRingBuffer.write]
  repeat' split
  all_goals exact ⟨rfl, rfl, rfl⟩

lemma set_range_fst_inv (s : DynamicAudioRingBuffer) (st : Int) (L : Nat)
    (h : s.physical_size = 2 * s.buffer_size) :
    (s.set_range st L).1.physical_size
      = 2 * (s.set_range st L).1.buffer_size := by
  simp only [DynamicAudioRingBuffer.set_range]
  repeat' split
  all_goals dsimp only
  all_goals omega

lemma set_range_zero_fst_buffer_size (s : DynamicAudioRingBuffer) (L : Nat) :
    (s.set_range 0 L).1.buffer_size = round_to_period s.period_size L := by
  simp only [DynamicAudioRingBuffer.set_range]
  rw [if_neg (by norm_num)]
  repeat' split
  all_goals dsimp only
  all_goals omega

lemma assign_useful_ne_none (old : List Int) (nl : Nat)
    (hlen : 0 < old.length) (hnl : 0 < nl) :
    npSliceAssign (List.replicate (nl * 2) (0 : Int)) 0
      (min old.length nl) (negSuffix old (min old.length nl)) ≠ none := by
  have hns : (negSuffix old (min old.length nl)).length
      = min old.length nl := by
    rw [negSuffix_length _ _ (by omega)]
    omega
  have hcond :
      min (min old.length nl) (List.replicate (nl * 2) (0 : Int)).length
        - min 0 (min (min old.length nl)
            (List.replicate (nl * 2) (0 : Int)).length)
        = (negSuffix old (min old.length nl)).length := by
    rw [hns]
    simp only [List.length_replicate]
    omega
  simp only [npSliceAssign]
  rw [if_pos hcond]
  exact Option.some_ne_none _

lemma set_range_zero_snd_none (s : DynamicAudioRingBuffer) (L : Nat) :
    (s.set_range 0 L).2 = none := by
  simp only [DynamicAudioRingBuffer.set_range]
  rw [if_neg (by norm_num)]
  split
  · rfl
  split
  · rfl
  next b _ =>
    split
    next hlt =>
      split
      next hlen =>
        split
        next heq =>
          exact absurd heq (assign_useful_ne_none _ _ hlen (by omega))
        next nb heq => rfl
      next => rfl
    next hge =>
      split
      next hlen =>
        have hnl : 0 < round_to_period s.period_size L := by
          rw [npSlice_length] at hlen
          omega
        split
        next heq =>
          exact absurd heq (assign_useful_ne_none _ _ hlen hnl)
        next nb heq => rfl
      next => rfl

lemma applyOps_id (s : FileAudioBuffer) (ops : List FileOp) :
    s.applyOps ops = s := by
  induction ops generalizing s with
  | nil => rfl
  | cons o t ih => cases o <;> exact ih s

/-! ## The claims -/

/-- C1 (code bug): on an active, non-frozen ring buffer with logical size
`N = 4` (period 2), the writes `[1,2]`, `[3,4]`, `[5,6]` all succeed, six
samples (more than `N`) have been written, yet `data` returns `[0,0,5,6]`
instead of the last four samples written, `[3,4,5,6]`: the first time the
write pointer is seen at or past the logical boundary, `write` copies the
still-unwritten second half of physical storage over the first half,
erasing the retained history. -/
theorem C1_first_wrap_destroys_history :
    (let s0 := (DynamicAudioRingBuffer.create 8000 4 (some 2)).activate
     let w1 := s0.write [1, 2]
     let w2 := w1.1.write [3, 4]
     let w3 := w2.1.write [5, 6]
     s0.active = true ∧ s0.frozen = false ∧ s0.buffer_size = 4 ∧
     w1.2 = none ∧ w2.2 = none ∧ w3.2 = none ∧
     w2.1.data = some [1, 2, 3, 4] ∧
     w3.1.data = some [0, 0, 5, 6] ∧
     w3.1.data ≠ some [3, 4, 5, 6]) := by decide

/-- C2 (code bug): on a dynamic mediator over a ring buffer with period 4,
opening views with arguments `(0, 100)` and `(50, 200)` yields a backend
logical size of `200`, not `≥ 250`, because `MediatedAudioBuffer.__init__`
discards the `start` argument and stores `0`; closing the second view does
re-run the resize pass and shrinks the logical size to `100 ≥ 100`. -/
theorem C2_resize_with_discarded_start :
    (let m0 : DynamicAudioBufferMediator :=
       ⟨DynamicAudioRingBuffer.create 8000 0 (some 4), []⟩
     let o1 := m0.open 1 0 (some 100)
     let o2 := o1.1.open 2 50 (some 200)
     let r := o2.1.remove_mediated_buffer 2
     o1.2.2 = none ∧ o2.2.2 = none ∧
     o2.1.backend.buffer_size = 200 ∧
     ¬ 250 ≤ o2.1.backend.buffer_size ∧
     r.2 = none ∧ r.1.backend.buffer_size = 100) := by decide

/-- C3: `physical_size = 2 * buffer_size` holds after construction and is
preserved by every operation, and after any `set_range(0, L)` the logical
size equals `round_up(L, period_size)` with the physical size twice that. -/
theorem C3_double_depth_invariant (sr isz L r : Nat) (p : Option Nat)
    (st : Int) (s : DynamicAudioRingBuffer) (d : List Int)
    (h : s.physical_size = 2 * s.buffer_size) :
    (DynamicAudioRingBuffer.create sr isz p).physical_size
      = 2 * (DynamicAudioRingBuffer.create sr isz p).buffer_size ∧
    (s.write d).1.physical_size = 2 * (s.write d).1.buffer_size ∧
    (s.set_range st L).1.physical_size
      = 2 * (s.set_range st L).1.buffer_size ∧
    s.activate.physical_size = 2 * s.activate.buffer_size ∧
    s.deactivate.physical_size = 2 * s.deactivate.buffer_size ∧
    s.freeze.physical_size = 2 * s.freeze.buffer_size ∧
    s.unfreeze.physical_size = 2 * s.unfreeze.buffer_size ∧
    s.close.physical_size = 2 * s.close.buffer_size ∧
    (s.set_sample_rate r).physical_size
      = 2 * (s.set_sample_rate r).buffer_size ∧
    (s.set_range 0 L).1.buffer_size = round_to_period s.period_size L ∧
    (s.set_range 0 L).1.physical_size
      = 2 * round_to_period s.period_size L := by
  refine ⟨?_, ?_, ?_, ?_, ?_, ?_, ?_, ?_, ?_, ?_, ?_⟩
  · simp only [DynamicAudioRingBuffer.create]
    omega
  · have hw := write_fst_sizes s d
    omega
  · exact set_range_fst_inv s st L h
  · simp only [DynamicAudioRingBuffer.activate]
    split <;> exact h
  · simp only [DynamicAudioRingBuffer.deactivate]
    split <;> exact h
  · exact h
  · exact h
  · exact h
  · exact h
  · exact set_range_zero_fst_buffer_size s L
  · rw [set_range_fst_inv s 0 L h, set_range_zero_fst_buffer_size s L]

/-- Witness for C3 at concrete inputs. -/
theorem C3_double_depth_invariant_witness :
    (DynamicAudioRingBuffer.create 1 0 none).physical_size
      = 2 * (DynamicAudioRingBuffer.create 1 0 none).buffer_size :=
  (C3_double_depth_invariant 1 0 4 9 none 0
    (DynamicAudioRingBuffer.create 2 0 none) [1] (by decide)).1

/-- C4 (code bug): on an allocated ring buffer with `N = 4` (period 4)
holding `data() = [5,6,7,8]` after eight samples were written,
`set_range(0, 8)` succeeds but afterwards `data()` is
`[0,0,0,0,5,6,7,8]` (eight samples, four of which were never written) and
`write_ptr = 8`, instead of the claimed last `min(4, 8) = 4` pre-call
samples `[5,6,7,8]` with `write_ptr = 4`: the source reads `self.data`
only after updating `self._buffer_size`, so the preserved window is taken
at the new length over the old storage. -/
theorem C4_set_range_copies_stale_window :
    (let s0 := (DynamicAudioRingBuffer.create 8000 4 (some 4)).activate
     let w1 := s0.write [1, 2, 3, 4]
     let w2 := w1.1.write [5, 6, 7, 8]
     let r := w2.1.set_range 0 8
     w1.2 = none ∧ w2.2 = none ∧
     w2.1.data = some [5, 6, 7, 8] ∧
     r.2 = none ∧
     r.1.data = some [0, 0, 0, 0, 5, 6, 7, 8] ∧ r.1.ptr = 8 ∧
     r.1.has_wrapped = false ∧
     r.1.data ≠ some [5, 6, 7, 8] ∧ r.1.ptr ≠ 4) := by decide

/-- C5: a mediated view's `data` is total (never raises), returns at most
`length` samples, and what it returns is a contiguous sub-slice of the
available backend data (empty when the backend is unallocated). -/
theorem C5_view_data_clamped (v : MediatedAudioBuffer) (d : List Int) :
    (v.data (some d)).length ≤ v.length ∧
    (v.data (some d)) <:+: d ∧
    v.data none = [] := by
  refine ⟨?_, ?_, rfl⟩
  · simp only [MediatedAudioBuffer.data, npSlice_length]
    omega
  · simp only [MediatedAudioBuffer.data, npSlice]
    exact (List.drop_suffix _ _).isInfix.trans (List.take_prefix _ _).isInfix

/-- C6 (code bug): `write` on a frozen (or inactive) buffer is not a no-op:
`self._ptr += n` sits outside the `if self._active and not self._frozen`
guard, so after freezing a buffer holding `[1,2,3,4]` a further
`write([5,6,7,8])` leaves storage untouched but advances the pointer to 8,
silently shifting `data()` to the stale window `[0,0,0,0]`. -/
theorem C6_frozen_write_advances_ptr :
    (let s0 := (DynamicAudioRingBuffer.create 8000 4 (some 4)).activate
     let s1 := ((s0.write [1, 2, 3, 4]).1).freeze
     let w := s1.write [5, 6, 7, 8]
     s1.ptr = 4 ∧ s1.data = some [1, 2, 3, 4] ∧
     w.2 = none ∧
     w.1.buffer = s1.buffer ∧ w.1.has_wrapped = s1.has_wrapped ∧
     w.1.ptr = 8 ∧ w.1 ≠ s1 ∧
     w.1.data = some [0, 0, 0, 0]) := by decide

/-- C7 (code bug): `MediatedAudioBuffer.close` reads `self._mediated_id`,
an attribute never assigned anywhere in the repository (views are
registered under `uid`), so closing any view raises `AttributeError` and
never deregisters it; `_remove_mediated_buffer` itself does return an
error for an unregistered id, leaving the mediator unchanged. -/
theorem C7_close_reads_unset_attribute (m : DynamicAudioBufferMediator)
    (b : DynamicAudioRingBuffer) (st uid : Nat) (l : Option Nat) :
    (MediatedAudioBuffer.create st l).mediated_id = none ∧
    m.close (MediatedAudioBuffer.create st l) = (m, some attributeError) ∧
    DynamicAudioBufferMediator.remove_mediated_buffer ⟨b, []⟩ uid
      = (⟨b, []⟩, some (viewNotFoundError uid)) :=
  ⟨rfl, rfl, rfl⟩

/-- C8: `set_range` with nonzero `start` raises `ValueError` leaving the
buffer unchanged, and with `start = 0` it never raises. -/
theorem C8_set_range_start_validation (s : DynamicAudioRingBuffer)
    (st : Int) (L : Nat) (h : st ≠ 0) :
    s.set_range st L = (s, some startValueError) ∧
    (s.set_range 0 L).2 = none := by
  constructor
  · simp only [DynamicAudioRingBuffer.set_range]
    rw [if_pos h]
  · exact set_range_zero_snd_none s L

/-- Witness for C8 at concrete inputs. -/
theorem C8_set_range_start_validation_witness :
    (DynamicAudioRingBuffer.create 8000 4 (some 4)).set_range 1 7
      = (DynamicAudioRingBuffer.create 8000 4 (some 4),
         some startValueError) :=
  (C8_set_range_start_validation
    (DynamicAudioRingBuffer.create 8000 4 (some 4)) 1 7 (by decide)).1

/-- C9: a file buffer returns the whole loaded array while active and
`None` when inactive; `try_lock` always succeeds; `set_range` and the
lock operations are no-ops, so any sequence of reader-side operations
leaves the state (hence every subsequent `data()` result) unchanged. -/
theorem C9_file_buffer_static (path : String) (d : List Int)
    (sr a c : Nat) (s : FileAudioBuffer) (ops : List FileOp) :
    (FileAudioBuffer.create path d sr).data = some d ∧
    s.applyOps ops = s ∧
    (s.applyOps ops).data = s.data ∧
    s.try_lock = true ∧
    s.set_range a c = s ∧
    ({ s with active := false } : FileAudioBuffer).data = none ∧
    ({ s with active := true } : FileAudioBuffer).data = s.buffer := by
  refine ⟨rfl, applyOps_id s ops, ?_, rfl, rfl, rfl, rfl⟩
  rw [applyOps_id s ops]

/-- C10: the view constructor used by both mediators stores `0` as the
internal start regardless of the `start` argument and defaults the length
to the constant `65536` when `length` is `None`; the requested start only
takes effect through a later `set_start` or `set_range` on the view. -/
theorem C10_view_ctor_discards_start (st l ns nl uid : Nat)
    (v : MediatedAudioBuffer) (m : DynamicAudioBufferMediator) :
    (MediatedAudioBuffer.create st (some l)).start = 0 ∧
    (MediatedAudioBuffer.create st none).start = 0 ∧
    (MediatedAudioBuffer.create st none).length = 65536 ∧
    (MediatedAudioBuffer.create st (some l)).length = l ∧
    (m.open uid st (some l)).2.1 = MediatedAudioBuffer.create st (some l) ∧
    (m.open uid st none).2.1 = MediatedAudioBuffer.create st none ∧
    (v.set_start ns).start = ns ∧
    (v.set_range ns nl).start = ns ∧
    (v.set_range ns nl).length = nl :=
  ⟨rfl, rfl, rfl, rfl, rfl, rfl, rfl, rfl, rfl⟩
